import Mathlib

/-
Shallow embedding of the Hospital Triage System (src/main.py).

The service exposes two endpoints:
  POST /recommend  (function recommned_department, lines 84-112) — single
    patient; prefers a generative-text suggestion validated against an
    allow-list, with a rule-based majority-vote fallback.
  POST /stats      (function department_stats, lines 139-158) — batch;
    rule-based only, returns a per-department frequency count.

Python strings are embedded as Lean String, str.lower() and str.strip()
as character-list operations (pyLower, pyStrip).  The dict
SYMPTOM_TO_DEPT is embedded as an association list (its keys are
pairwise distinct).  Python's max over a set iterates the set in an
order that depends on the string hashes, so the rule-based fallback
takes that iteration order as an explicit parameter ord, constrained to
be a permutation of the distinct departments in first-occurrence order;
Counter.most_common(1) is deterministic (dict insertion order, max keeps
the first maximal element) and needs no such parameter.
-/

/-- Python str.lower(), embedded as a per-character map (the table keys
and all symptom strings involved are ASCII). -/
def pyLower (s : String) : String := ⟨s.data.map Char.toLower⟩

/-- Python str.strip(): remove leading and trailing whitespace. -/
def pyStrip (s : String) : String :=
  ⟨((s.data.dropWhile Char.isWhitespace).reverse.dropWhile Char.isWhitespace).reverse⟩

/-- Pydantic model PatientInput (main.py lines 28-31). -/
structure PatientInput where
  gender : String
  age : Int
  symptoms : List String
deriving DecidableEq, Repr

/-- The rule-based symptom-to-department table (main.py lines 41-54). -/
def SYMPTOM_TO_DEPT : List (String × String) :=
  [("pusing", "Neurology"),
   ("sakit kepala", "Neurology"),
   ("sulit berjalan", "Neurology"),
   ("kehilangan keseimbangan", "Neurology"),
   ("mual", "Gastroenterology"),
   ("sakit perut", "Gastroenterology"),
   ("batuk", "Pulmonology"),
   ("sesak napas", "Pulmonology"),
   ("susah tidur", "Psychiatry"),
   ("menggigil", "Internal Medicine"),
   ("memar di tangan", "Dermatology"),
   ("gusi berdarah", "Dentistry")]

/-- Python dict lookup (d[k] as an Option); since SYMPTOM_TO_DEPT has
pairwise-distinct keys, first-match lookup coincides with dict lookup. -/
def tableLookup : List (String × String) → String → Option String
  | [], _ => none
  | (k, v) :: rest, key => if key = k then some v else tableLookup rest key

/-- SYMPTOM_TO_DEPT.get(symptom.lower(), "General Medicine")
(main.py lines 109 and 151). -/
def lookupDept (symptom : String) : String :=
  (tableLookup SYMPTOM_TO_DEPT (pyLower symptom)).getD "General Medicine"

/-- The per-symptom department list
[SYMPTOM_TO_DEPT.get(symptom.lower(), "General Medicine") for symptom in symptoms]
(main.py lines 109 and 151). -/
def deptList (symptoms : List String) : List String := symptoms.map lookupDept

/-- The distinct elements of a list in first-occurrence order: the
iteration order of a Python dict (hence of a Counter) built from the
list, and the member set of set(list). -/
def distinctKeys : List String → List String
  | [] => []
  | x :: xs => x :: (distinctKeys xs).filter (fun y => y != x)

/-- Python max(iterable, key=cnt): the first element of the iterable
whose key is maximal (max replaces the current best only on a strictly
greater key); none on an empty iterable. -/
def pyMaxBy (cnt : String → Nat) : List String → Option String
  | [] => none
  | k :: ks => some (ks.foldl (fun best x => if cnt best < cnt x then x else best) k)

/-- The rule-based fallback of /recommend (main.py lines 109-112):
max(set(departments), key=departments.count, default="General Mdicine"),
with ord the (hash-dependent) iteration order of set(departments).
The default string carries the source's typo. -/
def ruleFallback (symptoms : List String) (ord : List String) : String :=
  match pyMaxBy (fun d => (deptList symptoms).count d) ord with
  | some d => d
  | none => "General Mdicine"

/-- The per-patient department of /stats (main.py lines 151-152):
Counter(patient_depts).most_common(1)[0][0] if patient_depts else
"General Medicine".  Counter iterates its keys in first-occurrence
order and most_common(1) keeps the first key of maximal count. -/
def statsPatientDept (symptoms : List String) : String :=
  match pyMaxBy (fun d => (deptList symptoms).count d)
      (distinctKeys (deptList symptoms)) with
  | some d => d
  | none => "General Medicine"

/-- The allow-list of departments accepted from the generative path
(main.py lines 98-102). -/
def valid_departments : List String :=
  ["Neurology", "Cardiology", "Gastroenterology", "Pulmonology",
   "Psychiatry", "Internal Medicine", "Dentistry", "Dermatology",
   "General Medicine"]

/-- The /recommend endpoint (main.py lines 84-112).  llmResponse is the
generative collaborator's raw response content when the chain is
configured and the call succeeds (none models chain = None or a raised
exception, both of which fall through to the rule-based path); ord is
the set-iteration order used by the fallback.  Except.error 400 models
raise HTTPException(status_code=400). -/
def recommned_department (patient : PatientInput) (llmResponse : Option String)
    (ord : List String) : Except Nat String :=
  if patient.symptoms = [] then Except.error 400
  else
    match llmResponse with
    | some content =>
        if pyStrip content ∈ valid_departments then Except.ok (pyStrip content)
        else Except.ok (ruleFallback patient.symptoms ord)
    | none => Except.ok (ruleFallback patient.symptoms ord)

/-- The per-patient departments accumulated by /stats (main.py lines
146-153): patients with empty symptoms are skipped, every other patient
contributes statsPatientDept of its symptoms. -/
def statsDepartments (patients : List PatientInput) : List String :=
  patients.filterMap (fun patient =>
    if patient.symptoms = [] then none
    else some (statsPatientDept patient.symptoms))

/-- dict(Counter(l)) as an association list: each distinct element in
first-occurrence order paired with its multiplicity (main.py line 156). -/
def dictCounter (l : List String) : List (String × Nat) :=
  (distinctKeys l).map (fun d => (d, l.count d))

/-- The /stats endpoint (main.py lines 139-158). -/
def department_stats (patients : List PatientInput) :
    Except Nat (List (String × Nat)) :=
  if patients = [] then Except.error 400
  else Except.ok (dictCounter (statsDepartments patients))

/-! ### Basic lemmas about the embedded operations -/

theorem mem_distinctKeys (a : String) :
    ∀ (l : List String), a ∈ distinctKeys l ↔ a ∈ l
  | [] => Iff.rfl
  | x :: xs => by
      simp only [distinctKeys, List.mem_cons, List.mem_filter,
        mem_distinctKeys a xs, bne_iff_ne, ne_eq]
      by_cases h : a = x
      · simp [h]
      · simp [h]

theorem distinctKeys_nodup : ∀ (l : List String), (distinctKeys l).Nodup
  | [] => List.nodup_nil
  | x :: xs => by
      simp only [distinctKeys]
      refine List.Nodup.cons ?_ ((distinctKeys_nodup xs).filter _)
      intro hmem
      have h := List.mem_filter.mp hmem
      simp at h

theorem distinctKeys_ne_nil {l : List String} (h : l ≠ []) :
    distinctKeys l ≠ [] := by
  cases l with
  | nil => exact absurd rfl h
  | cons x xs => simp [distinctKeys]

theorem foldl_pick_mem (cnt : String → Nat) :
    ∀ (ks : List String) (k : String),
      ks.foldl (fun best x => if cnt best < cnt x then x else best) k ∈ k :: ks
  | [], k => by simp
  | x :: xs, k => by
      simp only [List.foldl_cons]
      by_cases hc : cnt k < cnt x
      · rw [if_pos hc]
        have h := foldl_pick_mem cnt xs x
        rcases List.mem_cons.mp h with h1 | h1
        · rw [h1]
          exact List.mem_cons_of_mem _ (List.mem_cons_self _ _)
        · exact List.mem_cons_of_mem _ (List.mem_cons_of_mem _ h1)
      · rw [if_neg hc]
        have h := foldl_pick_mem cnt xs k
        rcases List.mem_cons.mp h with h1 | h1
        · rw [h1]
          exact List.mem_cons_self _ _
        · exact List.mem_cons_of_mem _ (List.mem_cons_of_mem _ h1)

theorem foldl_pick_le (cnt : String → Nat) :
    ∀ (ks : List String) (k x : String), x ∈ k :: ks →
      cnt x ≤ cnt (ks.foldl (fun best y => if cnt best < cnt y then y else best) k)
  | [], k, x, hx => by
      simp at hx
      rw [hx]
      simp
  | y :: ys, k, x, hx => by
      simp only [List.foldl_cons]
      have hk : cnt k ≤ cnt (if cnt k < cnt y then y else k) := by
        by_cases hc : cnt k < cnt y
        · rw [if_pos hc]; exact Nat.le_of_lt hc
        · rw [if_neg hc]
      have hy : cnt y ≤ cnt (if cnt k < cnt y then y else k) := by
        by_cases hc : cnt k < cnt y
        · rw [if_pos hc]
        · rw [if_neg hc]; exact Nat.le_of_not_lt hc
      have hacc : cnt (if cnt k < cnt y then y else k) ≤
          cnt (ys.foldl (fun best z => if cnt best < cnt z then z else best)
            (if cnt k < cnt y then y else k)) :=
        foldl_pick_le cnt ys _ _ (List.mem_cons_self _ _)
      rcases List.mem_cons.mp hx with h | h
      · rw [h]; exact Nat.le_trans hk hacc
      · rcases List.mem_cons.mp h with h2 | h2
        · rw [h2]; exact Nat.le_trans hy hacc
        · exact foldl_pick_le cnt ys _ x (List.mem_cons_of_mem _ h2)

theorem pyMaxBy_eq_some (cnt : String → Nat) (keys : List String)
    (hne : keys ≠ []) :
    ∃ r, pyMaxBy cnt keys = some r ∧ r ∈ keys ∧ ∀ x ∈ keys, cnt x ≤ cnt r := by
  cases keys with
  | nil => exact absurd rfl hne
  | cons k ks =>
      exact ⟨_, rfl, foldl_pick_mem cnt ks k,
        fun x hx => foldl_pick_le cnt ks k x hx⟩

theorem tableLookup_mem :
    ∀ (t : List (String × String)) (key v : String),
      tableLookup t key = some v → v ∈ t.map Prod.snd
  | [], _, _, h => by simp [tableLookup] at h
  | (k, w) :: rest, key, v, h => by
      simp only [tableLookup] at h
      by_cases hk : key = k
      · rw [if_pos hk] at h
        injection h with h
        simp [h]
      · rw [if_neg hk] at h
        exact List.mem_cons_of_mem _ (tableLookup_mem rest key v h)

theorem lookupDept_mem_valid (s : String) : lookupDept s ∈ valid_departments := by
  unfold lookupDept
  cases h : tableLookup SYMPTOM_TO_DEPT (pyLower s) with
  | none => simp [valid_departments]
  | some v =>
      have hv := tableLookup_mem _ _ _ h
      have hsub : ∀ x ∈ SYMPTOM_TO_DEPT.map Prod.snd, x ∈ valid_departments := by
        decide
      simpa using hsub v hv

theorem deptList_ne_nil {symptoms : List String} (h : symptoms ≠ []) :
    deptList symptoms ≠ [] := by
  cases symptoms with
  | nil => exact absurd rfl h
  | cons x xs => simp [deptList]

/-- The rule-based fallback, on a non-empty symptom list and any valid
set-iteration order, returns a department occurring in the per-symptom
lookup list, and its occurrence count there is maximal. -/
theorem ruleFallback_spec (symptoms ord : List String) (hne : symptoms ≠ [])
    (hord : ord.Perm (distinctKeys (deptList symptoms))) :
    ruleFallback symptoms ord ∈ deptList symptoms ∧
      ∀ d ∈ deptList symptoms,
        (deptList symptoms).count d ≤
          (deptList symptoms).count (ruleFallback symptoms ord) := by
  have hordne : ord ≠ [] := by
    intro hnil
    rw [hnil] at hord
    exact distinctKeys_ne_nil (deptList_ne_nil hne) hord.nil_eq.symm
  obtain ⟨r, hr, hrmem, hrmax⟩ :=
    pyMaxBy_eq_some (fun d => (deptList symptoms).count d) ord hordne
  have hfb : ruleFallback symptoms ord = r := by
    simp [ruleFallback, hr]
  rw [hfb]
  constructor
  · exact (mem_distinctKeys r _).mp (hord.mem_iff.mp hrmem)
  · intro d hd
    exact hrmax d (hord.mem_iff.mpr ((mem_distinctKeys d _).mpr hd))

/-- The per-patient department of /stats, on a non-empty symptom list,
occurs in the per-symptom lookup list and its count there is maximal. -/
theorem statsPatientDept_spec (symptoms : List String) (hne : symptoms ≠ []) :
    statsPatientDept symptoms ∈ deptList symptoms ∧
      ∀ d ∈ deptList symptoms,
        (deptList symptoms).count d ≤
          (deptList symptoms).count (statsPatientDept symptoms) := by
  obtain ⟨r, hr, hrmem, hrmax⟩ :=
    pyMaxBy_eq_some (fun d => (deptList symptoms).count d)
      (distinctKeys (deptList symptoms))
      (distinctKeys_ne_nil (deptList_ne_nil hne))
  have hst : statsPatientDept symptoms = r := by
    simp [statsPatientDept, hr]
  rw [hst]
  constructor
  · exact (mem_distinctKeys r _).mp hrmem
  · intro d hd
    exact hrmax d ((mem_distinctKeys d _).mpr hd)

theorem ruleFallback_mem_valid (symptoms ord : List String) (hne : symptoms ≠ [])
    (hord : ord.Perm (distinctKeys (deptList symptoms))) :
    ruleFallback symptoms ord ∈ valid_departments := by
  have hmem := (ruleFallback_spec symptoms ord hne hord).1
  obtain ⟨s, _, hs⟩ := List.mem_map.mp hmem
  rw [← hs]
  exact lookupDept_mem_valid s

theorem perm_pair_cases (a b : String) :
    ∀ (ord : List String), ord.Perm [a, b] → ord = [a, b] ∨ ord = [b, a] := by
  intro ord h
  have hlen := h.length_eq
  rcases ord with _ | ⟨x, _ | ⟨y, _ | ⟨z, rest⟩⟩⟩
  · simp at hlen
  · simp at hlen
  · have hx : x ∈ [a, b] := h.mem_iff.mp (List.mem_cons_self _ _)
    rcases List.mem_cons.mp hx with h1 | h1
    · rw [h1] at h
      have h2 : [y] = [b] := List.perm_singleton.mp h.cons_inv
      injection h2 with h3
      exact Or.inl (by rw [h1, h3])
    · have h1 : x = b := by simpa using h1
      rw [h1] at h
      have hswap : List.Perm [a, b] [b, a] := List.Perm.swap b a []
      have h2 : [y] = [a] := List.perm_singleton.mp (h.trans hswap).cons_inv
      injection h2 with h3
      exact Or.inr (by rw [h1, h3])
  · simp at hlen

theorem distinctKeys_perm_dedup (l : List String) :
    (distinctKeys l).Perm l.dedup := by
  apply List.perm_of_nodup_nodup_toFinset_eq (distinctKeys_nodup l) l.nodup_dedup
  ext a
  simp [List.mem_toFinset, mem_distinctKeys, List.mem_dedup]

theorem dictCounter_sum (l : List String) :
    ((dictCounter l).map (fun pr => pr.2)).sum = l.length := by
  have h1 : ((dictCounter l).map (fun pr => pr.2)).sum
      = ((distinctKeys l).map (fun d => l.count d)).sum := by
    rw [dictCounter, List.map_map]
    rfl
  rw [h1, ((distinctKeys_perm_dedup l).map (fun d => l.count d)).sum_eq]
  exact List.sum_map_count_dedup_eq_length l

theorem dictCounter_pos (l : List String) :
    ∀ pr ∈ dictCounter l, 1 ≤ pr.2 := by
  intro pr hpr
  obtain ⟨d, hd, hpr2⟩ := List.mem_map.mp hpr
  rw [← hpr2]
  exact List.count_pos_iff.mpr ((mem_distinctKeys d l).mp hd)

theorem statsDepartments_length (patients : List PatientInput) :
    (statsDepartments patients).length
      = (patients.filter (fun p => !p.symptoms.isEmpty)).length := by
  induction patients with
  | nil => rfl
  | cons p ps ih =>
      by_cases h : p.symptoms = []
      · have h1 : statsDepartments (p :: ps) = statsDepartments ps := by
          simp [statsDepartments, List.filterMap_cons, h]
        have h2 : (p :: ps).filter (fun q => !q.symptoms.isEmpty)
            = ps.filter (fun q => !q.symptoms.isEmpty) := by
          simp [List.filter_cons, h]
        rw [h1, h2, ih]
      · have h1 : statsDepartments (p :: ps)
            = statsPatientDept p.symptoms :: statsDepartments ps := by
          simp [statsDepartments, List.filterMap_cons, h]
        have h2 : (p :: ps).filter (fun q => !q.symptoms.isEmpty)
            = p :: ps.filter (fun q => !q.symptoms.isEmpty) := by
          simp [List.filter_cons, h]
        rw [h1, h2]
        simp [ih]

theorem statsDepartments_all_empty :
    ∀ (patients : List PatientInput), (∀ p ∈ patients, p.symptoms = []) →
      statsDepartments patients = []
  | [], _ => rfl
  | p :: ps, h => by
      have hp := h p (List.mem_cons_self _ _)
      have hrest := statsDepartments_all_empty ps
        (fun q hq => h q (List.mem_cons_of_mem _ hq))
      simp only [statsDepartments, List.filterMap_cons, hp, if_pos]
      simpa [statsDepartments] using hrest

/-! ### Claims -/

/-- C1 counterexample: on the symptom list ["pusing", "mual"] the two
looked-up departments Neurology and Gastroenterology tie at one
occurrence each; ["Gastroenterology", "Neurology"] is a valid
set-iteration order (a permutation of the distinct departments), under
which the /recommend fallback returns "Gastroenterology" while the
/stats per-patient selection returns "Neurology" — so the two
per-patient functions are not equal on all non-empty symptom lists. -/
theorem C1_tie_counterexample :
    (["Gastroenterology", "Neurology"] : List String).Perm
        (distinctKeys (deptList ["pusing", "mual"])) ∧
    ruleFallback ["pusing", "mual"] ["Gastroenterology", "Neurology"]
        = "Gastroenterology" ∧
    statsPatientDept ["pusing", "mual"] = "Neurology" ∧
    ruleFallback ["pusing", "mual"] ["Gastroenterology", "Neurology"]
        ≠ statsPatientDept ["pusing", "mual"] := by
  exact ⟨by decide, by decide, by decide, by decide⟩

/-- C1 (amended): for every non-empty symptom list and every valid
set-iteration order, the /recommend rule-based fallback and the /stats
per-patient selection each return a department occurring in the
per-symptom lookup list whose occurrence count is maximal; whenever the
maximal-count department is unique the two results coincide (ties are
the only source of disagreement). -/
theorem C1_rule_paths_agree_up_to_ties (symptoms ord : List String)
    (hne : symptoms ≠ [])
    (hord : ord.Perm (distinctKeys (deptList symptoms))) :
    ruleFallback symptoms ord ∈ deptList symptoms ∧
    (∀ d ∈ deptList symptoms,
      (deptList symptoms).count d ≤
        (deptList symptoms).count (ruleFallback symptoms ord)) ∧
    statsPatientDept symptoms ∈ deptList symptoms ∧
    (∀ d ∈ deptList symptoms,
      (deptList symptoms).count d ≤
        (deptList symptoms).count (statsPatientDept symptoms)) ∧
    ((∀ d1 ∈ deptList symptoms, ∀ d2 ∈ deptList symptoms,
        (∀ d ∈ deptList symptoms,
          (deptList symptoms).count d ≤ (deptList symptoms).count d1) →
        (∀ d ∈ deptList symptoms,
          (deptList symptoms).count d ≤ (deptList symptoms).count d2) →
        d1 = d2) →
      ruleFallback symptoms ord = statsPatientDept symptoms) := by
  obtain ⟨hm, hmax⟩ := ruleFallback_spec symptoms ord hne hord
  obtain ⟨hm2, hmax2⟩ := statsPatientDept_spec symptoms hne
  exact ⟨hm, hmax, hm2, hmax2, fun huniq => huniq _ hm _ hm2 hmax hmax2⟩

/-- C1 witness: the amended theorem applied at the concrete symptom list
["pusing", "mual", "pusing"] and set-iteration order
["Gastroenterology", "Neurology"]. -/
theorem C1_rule_paths_agree_witness :
    ruleFallback ["pusing", "mual", "pusing"] ["Gastroenterology", "Neurology"]
        ∈ deptList ["pusing", "mual", "pusing"] ∧
    (∀ d ∈ deptList ["pusing", "mual", "pusing"],
      (deptList ["pusing", "mual", "pusing"]).count d ≤
        (deptList ["pusing", "mual", "pusing"]).count
          (ruleFallback ["pusing", "mual", "pusing"]
            ["Gastroenterology", "Neurology"])) ∧
    statsPatientDept ["pusing", "mual", "pusing"]
        ∈ deptList ["pusing", "mual", "pusing"] ∧
    (∀ d ∈ deptList ["pusing", "mual", "pusing"],
      (deptList ["pusing", "mual", "pusing"]).count d ≤
        (deptList ["pusing", "mual", "pusing"]).count
          (statsPatientDept ["pusing", "mual", "pusing"])) ∧
    ((∀ d1 ∈ deptList ["pusing", "mual", "pusing"],
        ∀ d2 ∈ deptList ["pusing", "mual", "pusing"],
        (∀ d ∈ deptList ["pusing", "mual", "pusing"],
          (deptList ["pusing", "mual", "pusing"]).count d ≤
            (deptList ["pusing", "mual", "pusing"]).count d1) →
        (∀ d ∈ deptList ["pusing", "mual", "pusing"],
          (deptList ["pusing", "mual", "pusing"]).count d ≤
            (deptList ["pusing", "mual", "pusing"]).count d2) →
        d1 = d2) →
      ruleFallback ["pusing", "mual", "pusing"] ["Gastroenterology", "Neurology"]
          = statsPatientDept ["pusing", "mual", "pusing"]) :=
  C1_rule_paths_agree_up_to_ties ["pusing", "mual", "pusing"]
    ["Gastroenterology", "Neurology"] (by decide) (by decide)

/-- C2: the rule-based fallback applied to an empty symptom list returns
the max default string, which in the source is the typo
"General Mdicine", not the "General Medicine" promised by the source's
own comment on line 110 and by the spec. -/
theorem C2_empty_fallback_typo :
    ruleFallback [] [] = "General Mdicine" ∧
    ruleFallback [] [] ≠ "General Medicine" :=
  ⟨rfl, by decide⟩

/-- C3: whenever the trimmed generative response is outside the
allow-list, /recommend returns the rule-based fallback result — which is
itself always an allow-list member — and never the invalid text. -/
theorem C3_invalid_generative_text_falls_back (patient : PatientInput)
    (content : String) (ord : List String)
    (hne : patient.symptoms ≠ [])
    (hord : ord.Perm (distinctKeys (deptList patient.symptoms)))
    (hinvalid : pyStrip content ∉ valid_departments) :
    recommned_department patient (some content) ord
        = Except.ok (ruleFallback patient.symptoms ord) ∧
    ruleFallback patient.symptoms ord ∈ valid_departments ∧
    recommned_department patient (some content) ord
        ≠ Except.ok (pyStrip content) := by
  have hfb := ruleFallback_mem_valid patient.symptoms ord hne hord
  have heq : recommned_department patient (some content) ord
      = Except.ok (ruleFallback patient.symptoms ord) := by
    simp [recommned_department, hne, hinvalid]
  refine ⟨heq, hfb, ?_⟩
  rw [heq]
  intro hcontra
  injection hcontra with hcontra
  rw [hcontra] at hfb
  exact hinvalid hfb

/-- C3 witness: the theorem applied to a patient with symptom "pusing"
and the out-of-allow-list generative response " Radiology ". -/
theorem C3_invalid_generative_witness :
    recommned_department ⟨"male", 40, ["pusing"]⟩ (some " Radiology ")
        ["Neurology"]
        = Except.ok (ruleFallback ["pusing"] ["Neurology"]) ∧
    ruleFallback ["pusing"] ["Neurology"] ∈ valid_departments ∧
    recommned_department ⟨"male", 40, ["pusing"]⟩ (some " Radiology ")
        ["Neurology"]
        ≠ Except.ok (pyStrip " Radiology ") :=
  C3_invalid_generative_text_falls_back ⟨"male", 40, ["pusing"]⟩ " Radiology "
    ["Neurology"] (by decide) (by decide) (by decide)

/-- C4: a patient with an empty symptom list is rejected by /recommend
with HTTP 400, whatever the generative response and set order. -/
theorem C4_empty_symptoms_rejected (patient : PatientInput)
    (llmResponse : Option String) (ord : List String)
    (h : patient.symptoms = []) :
    recommned_department patient llmResponse ord = Except.error 400 := by
  simp [recommned_department, h]

/-- C4 witness: the theorem applied to a concrete empty-symptom patient. -/
theorem C4_empty_symptoms_witness :
    recommned_department ⟨"female", 30, []⟩ none [] = Except.error 400 :=
  C4_empty_symptoms_rejected ⟨"female", 30, []⟩ none [] rfl

/-- C5: the empty patient sequence is rejected by /stats with HTTP 400,
so no counts mapping is produced. -/
theorem C5_empty_batch_rejected :
    department_stats [] = Except.error 400 := rfl

/-- C6: a non-empty batch in which every patient has an empty symptom
list succeeds and returns the empty counts mapping. -/
theorem C6_all_empty_symptoms_yields_empty_counts
    (patients : List PatientInput) (hne : patients ≠ [])
    (hall : ∀ p ∈ patients, p.symptoms = []) :
    department_stats patients = Except.ok [] := by
  unfold department_stats
  rw [if_neg hne, statsDepartments_all_empty patients hall]
  rfl

/-- C6 witness: the theorem applied to a one-patient batch whose only
patient has no symptoms. -/
theorem C6_all_empty_symptoms_witness :
    department_stats [⟨"male", 25, []⟩] = Except.ok [] :=
  C6_all_empty_symptoms_yields_empty_counts [⟨"male", 25, []⟩]
    (by decide) (by decide)

/-- C7: for a symptom whose lowercase form is a key of SYMPTOM_TO_DEPT,
rule-based resolution of that single symptom returns exactly the mapped
department, for every valid set-iteration order. -/
theorem C7_known_symptom_maps_to_table_department (s d : String)
    (ord : List String)
    (hkey : tableLookup SYMPTOM_TO_DEPT (pyLower s) = some d)
    (hord : ord.Perm (distinctKeys (deptList [s]))) :
    ruleFallback [s] ord = d := by
  have hdl : deptList [s] = [d] := by
    simp [deptList, lookupDept, hkey]
  rw [hdl] at hord
  have hdk : distinctKeys [d] = [d] := rfl
  rw [hdk] at hord
  rw [List.perm_singleton.mp hord]
  simp [ruleFallback, pyMaxBy, hdl]

/-- C7 witness: the theorem applied to the symptom "Pusing" (testing the
case-insensitive lookup), mapped department "Neurology". -/
theorem C7_known_symptom_witness :
    ruleFallback ["Pusing"] ["Neurology"] = "Neurology" :=
  C7_known_symptom_maps_to_table_department "Pusing" "Neurology" ["Neurology"]
    (by decide) (by decide)

/-- C8: for a symptom whose lowercase form is not a key of
SYMPTOM_TO_DEPT, rule-based resolution of that single symptom returns
"General Medicine", for every valid set-iteration order. -/
theorem C8_unknown_symptom_maps_to_general_medicine (s : String)
    (ord : List String)
    (hkey : tableLookup SYMPTOM_TO_DEPT (pyLower s) = none)
    (hord : ord.Perm (distinctKeys (deptList [s]))) :
    ruleFallback [s] ord = "General Medicine" := by
  have hdl : deptList [s] = ["General Medicine"] := by
    simp [deptList, lookupDept, hkey]
  rw [hdl] at hord
  have hdk : distinctKeys ["General Medicine"] = ["General Medicine"] := rfl
  rw [hdk] at hord
  rw [List.perm_singleton.mp hord]
  simp [ruleFallback, pyMaxBy, hdl]

/-- C8 witness: the theorem applied to the spec's scenario symptom
"demam", which is not in the table. -/
theorem C8_unknown_symptom_witness :
    ruleFallback ["demam"] ["General Medicine"] = "General Medicine" :=
  C8_unknown_symptom_maps_to_general_medicine "demam" ["General Medicine"]
    (by decide) (by decide)

/-- C9: rule-based resolution of ["pusing", "mual", "pusing"] returns
"Neurology" (count 2 for Neurology versus 1 for Gastroenterology), for
every valid set-iteration order. -/
theorem C9_majority_two_to_one (ord : List String)
    (hord : ord.Perm (distinctKeys (deptList ["pusing", "mual", "pusing"]))) :
    ruleFallback ["pusing", "mual", "pusing"] ord = "Neurology" := by
  have hdk : distinctKeys (deptList ["pusing", "mual", "pusing"])
      = ["Neurology", "Gastroenterology"] := by decide
  rw [hdk] at hord
  rcases perm_pair_cases "Neurology" "Gastroenterology" ord hord with h | h
  · rw [h]; decide
  · rw [h]; decide

/-- C9 witness: the theorem applied at the set-iteration order
["Neurology", "Gastroenterology"]. -/
theorem C9_majority_witness :
    ruleFallback ["pusing", "mual", "pusing"] ["Neurology", "Gastroenterology"]
        = "Neurology" :=
  C9_majority_two_to_one ["Neurology", "Gastroenterology"] (by decide)

/-- C10: for every non-empty batch, /stats succeeds with a counts
mapping whose values sum to the number of patients with a non-empty
symptom list, and every department present counts at least one. -/
theorem C10_counts_sum_and_positivity (patients : List PatientInput)
    (hne : patients ≠ []) :
    department_stats patients
        = Except.ok (dictCounter (statsDepartments patients)) ∧
    ((dictCounter (statsDepartments patients)).map (fun pr => pr.2)).sum
        = (patients.filter (fun p => !p.symptoms.isEmpty)).length ∧
    ∀ pr ∈ dictCounter (statsDepartments patients), 1 ≤ pr.2 := by
  refine ⟨?_, ?_, dictCounter_pos _⟩
  · unfold department_stats
    rw [if_neg hne]
  · rw [dictCounter_sum, statsDepartments_length]

/-- C10 witness: the theorem applied to a two-patient batch, one patient
with symptom "batuk" and one with no symptoms. -/
theorem C10_counts_witness :
    department_stats [⟨"male", 30, ["batuk"]⟩, ⟨"female", 41, []⟩]
        = Except.ok (dictCounter (statsDepartments
            [⟨"male", 30, ["batuk"]⟩, ⟨"female", 41, []⟩])) ∧
    ((dictCounter (statsDepartments
        [⟨"male", 30, ["batuk"]⟩, ⟨"female", 41, []⟩])).map
            (fun pr => pr.2)).sum
        = (([⟨"male", 30, ["batuk"]⟩, ⟨"female", 41, []⟩]
            : List PatientInput).filter (fun p => !p.symptoms.isEmpty)).length ∧
    ∀ pr ∈ dictCounter (statsDepartments
        [⟨"male", 30, ["batuk"]⟩, ⟨"female", 41, []⟩]), 1 ≤ pr.2 :=
  C10_counts_sum_and_positivity
    [⟨"male", 30, ["batuk"]⟩, ⟨"female", 41, []⟩] (by decide)
